import Mathlib

/-!
Shallow embedding of the financial calculation logic of the finance3
repository (a personal-finance web application).  Each definition below is
translated from a concrete function or inline expression of the source:

* `calculatePayoffDate`            — src/src/app/debts/page.tsx, lines 49-53
* `totalAssets`, `totalLiabilities`, `netWorth`
                                   — src/src/app/debts/page.tsx (AccountsPage),
                                     lines 312-320
* `totalAssetsDeploy`, `totalLiabilitiesDeploy`, `netWorthDeploy`
                                   — src/unnamed/part_002 (deploy-script copy of
                                     the accounts page), lines 1484-1486
* `biWeeklyIncome`                 — src/src/app/budget/page.tsx, line 16
* `calculateMonthsRemaining`, `isOnTrack`, `activeGoals`, `totalTargetAmount`,
  `totalCurrentAmount`, `overallProgress`
                                   — src/src/app/savings/page.tsx, lines 72-103
* `getBillStatusText`, `getDaysUntilDue`
                                   — src/unnamed/part_000 (bills page),
                                     lines 199-203 and 222-228
* `totalIncome`, `totalExpenses`, `netAmount`
                                   — src/unnamed/part_003 (transactions page),
                                     lines 87-95

Currency amounts are modelled as exact rationals (`ℚ`); the JavaScript source
uses IEEE-754 doubles, whose rounding is not modelled.  Dates are modelled as
integer epoch milliseconds, matching the `Date.getTime()` arithmetic of the
source.  The debt amortization formula uses `Math.log` and can produce the
special values `NaN` and `Infinity`; those paths are modelled over `ℝ`
extended with explicit `nan` / `posinf` / `neginf` constructors.
-/

/-! ### Accounts: net-position sums (src/src/app/debts/page.tsx, AccountsPage) -/

/-- Account categories of the `Account` interface in the accounts page. -/
inductive AccountType where
  | checking
  | savings
  | credit
  | investment
deriving DecidableEq, BEq, Repr

/-- The `Account` record of the accounts page (presentation-only fields such
as `bankName` and `accountNumber` are carried as plain data and never read by
the calculations). -/
structure Account where
  name : String
  accountType : AccountType
  balance : ℚ
  isActive : Bool
deriving DecidableEq, Repr

/-- `totalAssets` of the src AccountsPage:
`accounts.filter(a => a.type !== 'credit' && a.balance > 0).reduce((s,a) => s + a.balance, 0)`. -/
def totalAssets (accounts : List Account) : ℚ :=
  ((accounts.filter fun a =>
      !decide (a.accountType = AccountType.credit) && decide (0 < a.balance)).map
    (fun a => a.balance)).sum

/-- `totalLiabilities` of the src AccountsPage:
`accounts.filter(a => a.type === 'credit' && a.balance < 0).reduce((s,a) => s + Math.abs(a.balance), 0)`. -/
def totalLiabilities (accounts : List Account) : ℚ :=
  ((accounts.filter fun a =>
      decide (a.accountType = AccountType.credit) && decide (a.balance < 0)).map
    (fun a => |a.balance|)).sum

/-- `netWorth = totalAssets - totalLiabilities` (src AccountsPage, line 320). -/
def netWorth (accounts : List Account) : ℚ :=
  totalAssets accounts - totalLiabilities accounts

/-- `totalAssets` of the deploy-script copy of the accounts page
(src/unnamed/part_002 line 1484): `accounts.filter(a => a.balance > 0)`,
with no account-type condition. -/
def totalAssetsDeploy (accounts : List Account) : ℚ :=
  ((accounts.filter fun a => decide (0 < a.balance)).map (fun a => a.balance)).sum

/-- `totalLiabilities` of the deploy-script copy (src/unnamed/part_002 line
1485): `accounts.filter(a => a.balance < 0)` summing `Math.abs(a.balance)`. -/
def totalLiabilitiesDeploy (accounts : List Account) : ℚ :=
  ((accounts.filter fun a => decide (a.balance < 0)).map (fun a => |a.balance|)).sum

/-- `netWorth` of the deploy-script copy (src/unnamed/part_002 line 1486). -/
def netWorthDeploy (accounts : List Account) : ℚ :=
  totalAssetsDeploy accounts - totalLiabilitiesDeploy accounts

/-- The sum of balances of credit-category accounts holding a positive
balance (the "credit float" of the spec); used to relate the source's
`totalAssets` to the spec's asset rule. -/
def creditFloat (accounts : List Account) : ℚ :=
  ((accounts.filter fun a =>
      decide (a.accountType = AccountType.credit) && decide (0 < a.balance)).map
    (fun a => a.balance)).sum

/-- The asset rule as the spec words it (for comparison with the source's
`totalAssets`): balances of non-credit accounts with positive balance, plus
balances of credit accounts with positive balance. -/
def totalAssetsSpecRule (accounts : List Account) : ℚ :=
  totalAssets accounts + creditFloat accounts

/-! ### Budget: bi-weekly income (src/src/app/budget/page.tsx) -/

/-- `biWeeklyIncome = budget.monthlyIncome * 12 / 26` (budget page, line 16). -/
def biWeeklyIncome (monthlyIncome : ℚ) : ℚ :=
  monthlyIncome * 12 / 26

/-- Pay-frequency enumeration of the spec's Budget record. -/
inductive PayFrequency where
  | weekly
  | biweekly
  | monthly
  | quarterly
  | yearly
deriving DecidableEq, BEq, Repr

/-- Modelled from the spec (for comparison with the source's
`biWeeklyIncome`): `periodsPerYear`: weekly=52, bi-weekly=26, monthly=12,
quarterly=4, yearly=1.  No such function exists in the source, which
hard-codes the bi-weekly case. -/
def periodsPerYear : PayFrequency → ℚ
  | PayFrequency.weekly => 52
  | PayFrequency.biweekly => 26
  | PayFrequency.monthly => 12
  | PayFrequency.quarterly => 4
  | PayFrequency.yearly => 1

/-- Modelled from the spec (for comparison with the source's
`biWeeklyIncome`): the claimed rule
`periodIncome = monthlyIncome × (periodsPerYear(frequency) / 12)`. -/
def periodIncomeSpecRule (f : PayFrequency) (monthlyIncome : ℚ) : ℚ :=
  monthlyIncome * (periodsPerYear f / 12)

/-! ### Savings goals (src/src/app/savings/page.tsx) -/

/-- The `SavingsGoal` record of the savings page.  `targetDate` is epoch
milliseconds (the source stores an ISO string and converts it with
`new Date(...).getTime()`). -/
structure SavingsGoal where
  name : String
  targetAmount : ℚ
  currentAmount : ℚ
  targetDate : ℤ
  isActive : Bool
  monthlyContribution : ℚ
  progress : ℚ
deriving DecidableEq, Repr

/-- `calculateMonthsRemaining(targetDate, currentAmount, targetAmount, monthlyContribution)`
(savings page, lines 91-95): returns `0` when the remaining amount is ≤ 0 or
the monthly contribution is ≤ 0, else `Math.ceil(remaining / monthlyContribution)`.
The `targetDate` parameter is accepted and ignored, exactly as in the source. -/
def calculateMonthsRemaining (targetDate : ℤ) (currentAmount targetAmount monthlyContribution : ℚ) : ℤ :=
  if targetAmount - currentAmount ≤ 0 ∨ monthlyContribution ≤ 0 then 0
  else ⌈(targetAmount - currentAmount) / monthlyContribution⌉

/-- `isOnTrack(goal)` (savings page, lines 97-103).  In the source the
current time is NOT a parameter: the body reads the ambient clock with
`new Date()`.  The clock value read there is made explicit here as `nowMs`
so that the dependence on it can be stated.
`monthsUntilTarget = Math.ceil((targetDate - now) / (1000*60*60*24*30))`. -/
def isOnTrack (goal : SavingsGoal) (nowMs : ℤ) : Bool :=
  decide (calculateMonthsRemaining goal.targetDate goal.currentAmount
      goal.targetAmount goal.monthlyContribution
    ≤ ⌈(((goal.targetDate - nowMs : ℤ) : ℚ) / 2592000000)⌉)

/-- `activeGoals = goals.filter(goal => goal.isActive)` (savings page, line 72). -/
def activeGoals (goals : List SavingsGoal) : List SavingsGoal :=
  goals.filter fun g => g.isActive

/-- `totalTargetAmount` (savings page, line 75): sum of `targetAmount` over
the active goals. -/
def totalTargetAmount (goals : List SavingsGoal) : ℚ :=
  ((activeGoals goals).map (fun g => g.targetAmount)).sum

/-- `totalCurrentAmount` (savings page, line 76): sum of `currentAmount` over
the active goals. -/
def totalCurrentAmount (goals : List SavingsGoal) : ℚ :=
  ((activeGoals goals).map (fun g => g.currentAmount)).sum

/-- `overallProgress = totalTargetAmount > 0 ? (totalCurrentAmount / totalTargetAmount) * 100 : 0`
(savings page, line 78). -/
def overallProgress (goals : List SavingsGoal) : ℚ :=
  if 0 < totalTargetAmount goals then
    totalCurrentAmount goals / totalTargetAmount goals * 100
  else 0

/-! ### Bills (src/unnamed/part_000) -/

/-- The `Bill` record of the bills page.  The overdue state is a STORED
field of the record (`isOverdue: boolean` in the interface, lines 67-80),
populated in the mock data, not derived from `dueDate`. -/
structure Bill where
  name : String
  amount : ℚ
  dueDate : ℤ
  isPaid : Bool
  isOverdue : Bool
deriving DecidableEq, Repr

/-- `getBillStatusText(bill)` (bills page, lines 199-203):
`if (bill.isPaid) return 'Paid'; if (bill.isOverdue) return 'Overdue'; return 'Pending'`.
It reads the stored `isOverdue` flag and takes no as-of date. -/
def getBillStatusText (b : Bill) : String :=
  if b.isPaid then "Paid"
  else if b.isOverdue then "Overdue"
  else "Pending"

/-- Modelled from the spec (for comparison with the source's
`getBillStatusText`): the claimed classifier
`status = Paid if isPaidFlag; else Overdue if dueDate < asOfDate; else Pending`. -/
def classifySpecRule (dueDate : ℤ) (isPaidFlag : Bool) (asOfDate : ℤ) : String :=
  if isPaidFlag then "Paid"
  else if dueDate < asOfDate then "Overdue"
  else "Pending"

/-- `getDaysUntilDue(dueDate)` (bills page, lines 222-228).  In the source
`today` is NOT a parameter: the body reads the ambient clock with
`new Date()`; that clock value is made explicit here as `nowMs`.
`Math.ceil((due - today) / (1000*60*60*24))`. -/
def getDaysUntilDue (dueDateMs nowMs : ℤ) : ℤ :=
  ⌈(((dueDateMs - nowMs : ℤ) : ℚ) / 86400000)⌉

/-! ### Debt payoff (src/src/app/debts/page.tsx, lines 49-53)

The source computes
```
const monthlyRate = rate / 100 / 12
const months = Math.log(payment / (payment - balance * monthlyRate)) / Math.log(1 + monthlyRate)
return Math.ceil(months)
```
with no guard of any kind: no zero-rate branch, no check that the payment
covers the accruing interest, and no error value in the return type.  The
JavaScript special values NaN / Infinity / -Infinity that this expression can
produce are modelled explicitly by `JsNum`; finite values are idealized as
exact reals (IEEE-754 rounding is not modelled, and the sign of zero is not
tracked — the denominators reached here are exact). -/

/-- A JavaScript number: NaN, +Infinity, -Infinity, or a finite value. -/
inductive JsNum where
  | nan
  | posinf
  | neginf
  | fin (x : ℝ)

/-- Whether a `JsNum` is a finite number (neither NaN nor an infinity). -/
def JsNum.isFinite : JsNum → Bool
  | JsNum.fin _ => true
  | _ => false

/-- JavaScript division of two finite numbers: `a / 0` is `Infinity`,
`-Infinity` or `NaN` according to the sign of `a` (zero signs not tracked). -/
noncomputable def jsDivFin (a b : ℝ) : JsNum :=
  if b = 0 then
    if 0 < a then JsNum.posinf else if a < 0 then JsNum.neginf else JsNum.nan
  else JsNum.fin (a / b)

/-- JavaScript `Math.log`: `NaN` on negative arguments and `-Infinity` at 0. -/
noncomputable def jsLog : JsNum → JsNum
  | JsNum.nan => JsNum.nan
  | JsNum.posinf => JsNum.posinf
  | JsNum.neginf => JsNum.nan
  | JsNum.fin x =>
    if 0 < x then JsNum.fin (Real.log x)
    else if x = 0 then JsNum.neginf
    else JsNum.nan

/-- JavaScript division on full `JsNum` values: any NaN operand gives NaN,
`±Infinity / ±Infinity` gives NaN, `±Infinity / finite` keeps or flips the
infinity by the sign of the divisor (division by zero included), and
`finite / ±Infinity` gives 0. -/
noncomputable def jsDiv : JsNum → JsNum → JsNum
  | JsNum.nan, _ => JsNum.nan
  | _, JsNum.nan => JsNum.nan
  | JsNum.posinf, JsNum.posinf => JsNum.nan
  | JsNum.posinf, JsNum.neginf => JsNum.nan
  | JsNum.neginf, JsNum.posinf => JsNum.nan
  | JsNum.neginf, JsNum.neginf => JsNum.nan
  | JsNum.posinf, JsNum.fin b => if 0 ≤ b then JsNum.posinf else JsNum.neginf
  | JsNum.neginf, JsNum.fin b => if 0 ≤ b then JsNum.neginf else JsNum.posinf
  | JsNum.fin _, JsNum.posinf => JsNum.fin 0
  | JsNum.fin _, JsNum.neginf => JsNum.fin 0
  | JsNum.fin a, JsNum.fin b => jsDivFin a b

/-- JavaScript `Math.ceil`: NaN and the infinities pass through. -/
noncomputable def jsCeil : JsNum → JsNum
  | JsNum.fin x => JsNum.fin (⌈x⌉ : ℝ)
  | s => s

/-- `calculatePayoffDate(balance, rate, payment)` (debts page, lines 49-53),
with `monthlyRate = rate / 100 / 12` inlined at both of its occurrences. -/
noncomputable def calculatePayoffDate (balance rate payment : ℝ) : JsNum :=
  jsCeil (jsDiv
    (jsLog (jsDivFin payment (payment - balance * (rate / 100 / 12))))
    (jsLog (JsNum.fin (1 + rate / 100 / 12))))

/-! ### Transactions (src/unnamed/part_003) -/

/-- Transaction types of the `Transaction` interface on the transactions page. -/
inductive TxType where
  | income
  | expense
  | transfer
deriving DecidableEq, BEq, Repr

/-- The `Transaction` record of the transactions page (fields not read by the
aggregates are omitted from the calculations but kept as plain data). -/
structure Transaction where
  description : String
  amount : ℚ
  txType : TxType
deriving DecidableEq, Repr

/-- `totalIncome` (transactions page, lines 87-89):
`transactions.filter(t => t.type === 'income').reduce((s,t) => s + t.amount, 0)`. -/
def totalIncome (ts : List Transaction) : ℚ :=
  ((ts.filter fun t => decide (t.txType = TxType.income)).map (fun t => t.amount)).sum

/-- `totalExpenses` (transactions page, lines 91-93):
`transactions.filter(t => t.type === 'expense').reduce((s,t) => s + Math.abs(t.amount), 0)`. -/
def totalExpenses (ts : List Transaction) : ℚ :=
  ((ts.filter fun t => decide (t.txType = TxType.expense)).map (fun t => |t.amount|)).sum

/-- `netAmount = totalIncome - totalExpenses` (transactions page, line 95). -/
def netAmount (ts : List Transaction) : ℚ :=
  totalIncome ts - totalExpenses ts

/-! ### Helper lemmas for evaluating the JavaScript number model -/

theorem jsDiv_nan_left (y : JsNum) : jsDiv JsNum.nan y = JsNum.nan := by
  cases y <;> rfl

theorem jsDiv_fin_fin (a b : ℝ) :
    jsDiv (JsNum.fin a) (JsNum.fin b) = jsDivFin a b := rfl

theorem jsDiv_posinf_fin (b : ℝ) :
    jsDiv JsNum.posinf (JsNum.fin b) =
      if 0 ≤ b then JsNum.posinf else JsNum.neginf := rfl

theorem jsLog_fin (x : ℝ) :
    jsLog (JsNum.fin x) =
      if 0 < x then JsNum.fin (Real.log x)
      else if x = 0 then JsNum.neginf
      else JsNum.nan := rfl

theorem jsLog_posinf : jsLog JsNum.posinf = JsNum.posinf := rfl

theorem jsCeil_nan : jsCeil JsNum.nan = JsNum.nan := rfl

theorem jsCeil_posinf : jsCeil JsNum.posinf = JsNum.posinf := rfl

/-- C1: for every debt input whose monthly payment does not exceed the first
month's accrued interest (`payment ≤ balance × (rate/100/12)`, with positive
balance and payment), `calculatePayoffDate` silently evaluates to the
JavaScript special value NaN (or +Infinity at exact equality) — the function
has no typed `UnpayableDebt` failure path at all, contrary to the claim. -/
theorem c1_unpayable_debt_silent (balance rate payment : ℝ)
    (hb : 0 < balance) (hp : 0 < payment)
    (h : payment ≤ balance * (rate / 100 / 12)) :
    calculatePayoffDate balance rate payment = JsNum.nan ∨
    calculatePayoffDate balance rate payment = JsNum.posinf := by
  have hbmr : 0 < balance * (rate / 100 / 12) := lt_of_lt_of_le hp h
  have hmr : 0 < rate / 100 / 12 := by
    rcases mul_pos_iff.mp hbmr with ⟨_, h2⟩ | ⟨h1, _⟩
    · exact h2
    · exact absurd hb (not_lt.mpr h1.le)
  rcases lt_or_eq_of_le (sub_nonpos.mpr h) with hd | hd
  · left
    have hdne : payment - balance * (rate / 100 / 12) ≠ 0 := ne_of_lt hd
    have hpd : payment / (payment - balance * (rate / 100 / 12)) < 0 :=
      div_neg_of_pos_of_neg hp hd
    simp only [calculatePayoffDate, jsDivFin, if_neg hdne, jsLog_fin,
      if_neg (not_lt.mpr hpd.le), if_neg hpd.ne]
    rw [jsDiv_nan_left, jsCeil_nan]
  · right
    have hlog : 0 < Real.log (1 + rate / 100 / 12) :=
      Real.log_pos (by linarith)
    simp only [calculatePayoffDate, jsDivFin, if_pos hd, if_pos hp,
      jsLog_posinf, jsLog_fin, if_pos (by linarith : (0:ℝ) < 1 + rate / 100 / 12),
      jsDiv_posinf_fin, if_pos hlog.le, jsCeil_posinf]

/-- Witness for `c1_unpayable_debt_silent` at the spec's own error-case input
`balance = 10000`, `rate = 24`, `payment = 150` (monthly interest 200). -/
theorem c1_unpayable_debt_silent_witness :
    (0:ℝ) < 10000 ∧ (0:ℝ) < 150 ∧ (150:ℝ) ≤ 10000 * (24 / 100 / 12) ∧
    (calculatePayoffDate 10000 24 150 = JsNum.nan ∨
     calculatePayoffDate 10000 24 150 = JsNum.posinf) :=
  ⟨by norm_num, by norm_num, by norm_num,
   c1_unpayable_debt_silent 10000 24 150 (by norm_num) (by norm_num) (by norm_num)⟩

/-- C2: at the zero-rate boundary input `balance = 1000`, `rate = 0`,
`payment = 100`, the source's `calculatePayoffDate` evaluates
`Math.log(100/100) / Math.log(1 + 0) = 0 / 0 = NaN` — not the claimed 10
months via a `ceil(balance / monthlyPayment)` branch, which does not exist
in the code. -/
theorem c2_zero_rate_payoff_is_nan :
    calculatePayoffDate 1000 0 100 = JsNum.nan := by
  have h1 : (100:ℝ) - 1000 * ((0:ℝ) / 100 / 12) = 100 := by norm_num
  have h2 : (1:ℝ) + (0:ℝ) / 100 / 12 = 1 := by norm_num
  simp only [calculatePayoffDate, h1, h2, jsDivFin,
    if_neg (by norm_num : (100:ℝ) ≠ 0)]
  norm_num [jsLog_fin, Real.log_one, jsDiv_fin_fin, jsDivFin, jsCeil_nan]

/-! ### Claims about the net-position sums -/

/-- Demonstration list for the asset rule: a single credit-category account
holding a positive balance (a credit float) of 100. -/
def floatAccounts : List Account :=
  [{ name := "Travel Rewards Card", accountType := AccountType.credit,
     balance := 100, isActive := true }]

/-- C3 counterexample: on a list holding one credit account with balance 100,
the src AccountsPage `totalAssets` is 0 (its filter requires
`type !== 'credit'`), while the claimed rule — which counts positive credit
balances as assets — gives 100. -/
theorem c3_counterexample :
    totalAssets floatAccounts = 0 ∧
    totalAssetsSpecRule floatAccounts = 100 ∧
    totalAssets floatAccounts ≠ totalAssetsSpecRule floatAccounts := by
  refine ⟨?_, ?_, ?_⟩ <;>
    norm_num [totalAssets, totalAssetsSpecRule, creditFloat, floatAccounts,
      List.filter_cons]

/-- C3 (amended): the src `totalAssets` excludes positive-balance credit
accounts, so the claimed rule exceeds it by exactly the credit float; the
deploy-script variant (`filter(a => a.balance > 0)`) does satisfy the
claimed rule. -/
theorem c3_totalAssets_excludes_credit_float (accounts : List Account) :
    totalAssetsSpecRule accounts = totalAssets accounts + creditFloat accounts ∧
    totalAssetsDeploy accounts = totalAssetsSpecRule accounts := by
  refine ⟨rfl, ?_⟩
  show totalAssetsDeploy accounts = totalAssets accounts + creditFloat accounts
  induction accounts with
  | nil => simp [totalAssetsDeploy, totalAssets, creditFloat]
  | cons a as ih =>
    simp only [totalAssetsDeploy, totalAssets, creditFloat, List.filter_cons] at ih ⊢
    by_cases hb : (0:ℚ) < a.balance
    · by_cases hc : a.accountType = AccountType.credit
      · simp [hb, hc]
        linarith [ih]
      · simp [hb, hc]
        linarith [ih]
    · simp [hb]
      linarith [ih]

/-! ### Claims about the bi-weekly income formula -/

/-- C4 counterexample: at the budget page's own monthly income 4500, the
source computes `4500 * 12 / 26 = 27000/13 ≈ 2076.92`, while the claimed
rule `monthlyIncome × (periodsPerYear/12)` gives `4500 × 26/12 = 9750`. -/
theorem c4_counterexample :
    biWeeklyIncome 4500 = 27000 / 13 ∧
    periodIncomeSpecRule PayFrequency.biweekly 4500 = 9750 ∧
    biWeeklyIncome 4500 ≠ periodIncomeSpecRule PayFrequency.biweekly 4500 := by
  refine ⟨?_, ?_, ?_⟩ <;>
    norm_num [biWeeklyIncome, periodIncomeSpecRule, periodsPerYear]

/-- C4 (amended): the source's per-period income divides by the number of
periods instead of multiplying: `biWeeklyIncome = monthlyIncome × 12 / 26`
(annual income split over 26 paychecks), so 26 bi-weekly incomes equal 12
monthly incomes. -/
theorem c4_biweekly_income_divides_by_periods (m : ℚ) :
    biWeeklyIncome m = m * 12 / periodsPerYear PayFrequency.biweekly ∧
    periodsPerYear PayFrequency.biweekly * biWeeklyIncome m = 12 * m := by
  constructor
  · rfl
  · show (26:ℚ) * (m * 12 / 26) = 12 * m
    ring

/-- C8: in both copies of the accounts page, `netWorth` is exactly
`totalAssets - totalLiabilities`, and the empty account list yields zero
assets, zero liabilities and zero net worth with no error path (all three
are total functions). -/
theorem c8_netWorth_identity (accounts : List Account) :
    netWorth accounts = totalAssets accounts - totalLiabilities accounts ∧
    netWorthDeploy accounts =
      totalAssetsDeploy accounts - totalLiabilitiesDeploy accounts ∧
    totalAssets ([] : List Account) = 0 ∧
    totalLiabilities ([] : List Account) = 0 ∧
    netWorth ([] : List Account) = 0 ∧
    totalAssetsDeploy ([] : List Account) = 0 ∧
    totalLiabilitiesDeploy ([] : List Account) = 0 ∧
    netWorthDeploy ([] : List Account) = 0 := by
  refine ⟨rfl, rfl, ?_, ?_, ?_, ?_, ?_, ?_⟩ <;>
    norm_num [netWorth, totalAssets, totalLiabilities, netWorthDeploy,
      totalAssetsDeploy, totalLiabilitiesDeploy]

/-! ### Claims about the savings-goal pacing -/

/-- C5 counterexample: for remaining amount `10000 - 6500 = 3500 > 0` and
monthly contribution 0, `calculateMonthsRemaining` returns the ordinary
finite value 0 — the same value it returns for an already-completed goal —
through its total return type; no infinity sentinel or typed Unreachable
failure exists in the code. -/
theorem c5_counterexample :
    calculateMonthsRemaining 0 6500 10000 0 = 0 := by
  norm_num [calculateMonthsRemaining]

/-- C5 (amended): whenever the remaining amount is positive and the monthly
contribution is ≤ 0, `calculateMonthsRemaining` returns 0 (conflating an
unreachable goal with a reached one) rather than reporting any Unreachable
failure or infinity sentinel. -/
theorem c5_zero_contribution_returns_zero (targetDate : ℤ)
    (currentAmount targetAmount monthlyContribution : ℚ)
    (hrem : 0 < targetAmount - currentAmount)
    (hmc : monthlyContribution ≤ 0) :
    calculateMonthsRemaining targetDate currentAmount targetAmount
      monthlyContribution = 0 := by
  simp [calculateMonthsRemaining, hmc]

/-- Witness for `c5_zero_contribution_returns_zero` at the goal shape
`target = 10000`, `current = 6500`, `monthlyContribution = 0`. -/
theorem c5_zero_contribution_returns_zero_witness :
    (0:ℚ) < 10000 - 6500 ∧ (0:ℚ) ≤ 0 ∧
    calculateMonthsRemaining 0 6500 10000 0 = 0 :=
  ⟨by norm_num, le_refl 0,
   c5_zero_contribution_returns_zero 0 6500 10000 0 (by norm_num) (by norm_num)⟩

/-- C10: the overall-progress computation is division-guarded.  Under the
data-model invariant that every goal's target amount is positive, a zero
summed target takes the guard's 0 branch and a non-zero summed target takes
the ratio branch. -/
theorem c10_overall_progress_guarded (goals : List SavingsGoal)
    (hpos : ∀ g ∈ goals, 0 < g.targetAmount) :
    (totalTargetAmount goals = 0 → overallProgress goals = 0) ∧
    (totalTargetAmount goals ≠ 0 →
      overallProgress goals =
        totalCurrentAmount goals / totalTargetAmount goals * 100) := by
  have hnn : 0 ≤ totalTargetAmount goals := by
    apply List.sum_nonneg
    intro x hx
    rcases List.mem_map.mp hx with ⟨g, hg, rfl⟩
    exact (hpos g (List.mem_of_mem_filter hg)).le
  constructor
  · intro h0
    simp [overallProgress, h0]
  · intro hne
    have hlt : 0 < totalTargetAmount goals := lt_of_le_of_ne hnn (Ne.symm hne)
    simp [overallProgress, hlt]

/-- One-goal demonstration list for the progress guard: target 200, current
amount 50 (progress 25%). -/
def demoGoals : List SavingsGoal :=
  [{ name := "Vacation", targetAmount := 200, currentAmount := 50,
     targetDate := 0, isActive := true, monthlyContribution := 25,
     progress := 25 }]

/-- Witness for `c10_overall_progress_guarded` on `demoGoals`. -/
theorem c10_overall_progress_guarded_witness :
    (∀ g ∈ demoGoals, 0 < g.targetAmount) ∧
    ((totalTargetAmount demoGoals = 0 → overallProgress demoGoals = 0) ∧
     (totalTargetAmount demoGoals ≠ 0 →
       overallProgress demoGoals =
         totalCurrentAmount demoGoals / totalTargetAmount demoGoals * 100)) :=
  ⟨by norm_num [demoGoals],
   c10_overall_progress_guarded demoGoals (by norm_num [demoGoals])⟩

/-! ### Claims about the bill status and the ambient clock -/

/-- A bill whose due date (epoch ms 0) lies before the as-of instant 100 of
the counterexample, unpaid, with the stored `isOverdue` flag left `false` —
the shape of the page's own mock data when time moves past a due date
without the flag being updated. -/
def staleBill : Bill :=
  { name := "Electric Bill", amount := 89.5, dueDate := 0,
    isPaid := false, isOverdue := false }

/-- C6 counterexample: the due date of `staleBill` is strictly before the
as-of instant 100, so the claimed date-computed classifier says Overdue,
but `getBillStatusText` reads the stored `isOverdue` flag and answers
Pending. -/
theorem c6_counterexample :
    staleBill.dueDate < 100 ∧ staleBill.isPaid = false ∧
    getBillStatusText staleBill = "Pending" ∧
    classifySpecRule staleBill.dueDate staleBill.isPaid 100 = "Overdue" ∧
    getBillStatusText staleBill ≠
      classifySpecRule staleBill.dueDate staleBill.isPaid 100 := by
  refine ⟨by decide, rfl, rfl, by decide, by decide⟩

/-- C6 (amended): `getBillStatusText` is Paid exactly when the paid flag is
set (regardless of any date), else Overdue exactly when the STORED
`isOverdue` flag is set, else Pending — the overdue/pending distinction is
read from the stored flag, not computed from `dueDate` and an as-of date
(the function takes no date at all), and every bill still maps to exactly
one of the three statuses. -/
theorem c6_status_from_stored_flag (b : Bill) :
    (getBillStatusText b = "Paid" ↔ b.isPaid = true) ∧
    (getBillStatusText b = "Overdue" ↔ b.isPaid = false ∧ b.isOverdue = true) ∧
    (getBillStatusText b = "Pending" ↔ b.isPaid = false ∧ b.isOverdue = false) := by
  cases hp : b.isPaid <;> cases ho : b.isOverdue <;>
    simp [getBillStatusText, hp, ho]

/-- Goal used to exhibit the clock dependence of `isOnTrack`: target 10000,
current 6500, monthly contribution 500 (7 months needed), target date at
epoch ms 31104000000 (twelve 30-day months after the epoch). -/
def pacedGoal : SavingsGoal :=
  { name := "Emergency Fund", targetAmount := 10000, currentAmount := 6500,
    targetDate := 31104000000, isActive := true, monthlyContribution := 500,
    progress := 65 }

/-- C7 counterexample: with the goal record held fixed, `isOnTrack` answers
`true` when the ambient clock reads epoch ms 0 (12 months available ≥ 7
needed) and `false` when it reads the target instant itself (0 months
available), and `getDaysUntilDue` likewise changes with the clock — so the
clock `new Date()` read inside these calculators changes their output on
identical explicit inputs. -/
theorem c7_counterexample :
    isOnTrack pacedGoal 0 = true ∧
    isOnTrack pacedGoal 31104000000 = false ∧
    getDaysUntilDue 0 0 = 0 ∧
    getDaysUntilDue 0 86400000 = -1 := by
  refine ⟨?_, ?_, ?_, ?_⟩ <;>
    norm_num [isOnTrack, calculateMonthsRemaining, getDaysUntilDue, pacedGoal,
      Int.ceil_neg, Int.floor_one]

/-- C7 (amended): `isOnTrack` (savings page) and `getDaysUntilDue` (bills
page) are not deterministic in their explicit record inputs: both read the
ambient clock (`new Date()`) inside their bodies, and there are inputs on
which two different clock instants yield different outputs.  The remaining
calculators take all their data as parameters. -/
theorem c7_clock_dependence :
    (∃ g : SavingsGoal, ∃ t u : ℤ, isOnTrack g t ≠ isOnTrack g u) ∧
    (∃ d t u : ℤ, getDaysUntilDue d t ≠ getDaysUntilDue d u) := by
  refine ⟨⟨pacedGoal, 0, 31104000000, ?_⟩, ⟨0, 0, 86400000, ?_⟩⟩ <;>
    norm_num [isOnTrack, calculateMonthsRemaining, getDaysUntilDue, pacedGoal,
      Int.ceil_neg, Int.floor_one]

/-! ### Claims about the transaction aggregates -/

/-- C9: `totalIncome` sums amounts of income-type transactions only,
`totalExpenses` sums absolute amounts of expense-type transactions only,
`netAmount` is their difference, and removing every transfer-type
transaction from a list changes none of the three aggregates. -/
theorem c9_transfer_neutral (ts : List Transaction) :
    netAmount ts = totalIncome ts - totalExpenses ts ∧
    totalIncome (ts.filter fun t => !decide (t.txType = TxType.transfer)) =
      totalIncome ts ∧
    totalExpenses (ts.filter fun t => !decide (t.txType = TxType.transfer)) =
      totalExpenses ts ∧
    netAmount (ts.filter fun t => !decide (t.txType = TxType.transfer)) =
      netAmount ts := by
  have hpi : (fun t : Transaction =>
      decide (t.txType = TxType.income) && !decide (t.txType = TxType.transfer)) =
      fun t : Transaction => decide (t.txType = TxType.income) := by
    funext t
    cases t.txType <;> rfl
  have hpe : (fun t : Transaction =>
      decide (t.txType = TxType.expense) && !decide (t.txType = TxType.transfer)) =
      fun t : Transaction => decide (t.txType = TxType.expense) := by
    funext t
    cases t.txType <;> rfl
  have hi : totalIncome (ts.filter fun t => !decide (t.txType = TxType.transfer)) =
      totalIncome ts := by
    simp only [totalIncome, List.filter_filter, hpi]
  have he : totalExpenses (ts.filter fun t => !decide (t.txType = TxType.transfer)) =
      totalExpenses ts := by
    simp only [totalExpenses, List.filter_filter, hpe]
  exact ⟨rfl, hi, he, by simp only [netAmount, hi, he]⟩
